import Mathlib

/-!
Verification of the mackinac client library against its specification.

The repository ships only documentation (reStructuredText pages and
notebooks) for the mackinac Python package; the Python modules themselves
are not included.  The definitions below therefore model the documented
behavior of the package: template models built from the ModelSEED
biochemistry tables, the role/complex/reaction linkage maps, the
reaction-list export used by fastgapfill, the four-stage
reconstruct/gap-fill/optimize/convert workflow against the ModelSEED web
service, the genome lookup client, token handling, and the solution-list
accessors.  Each definition whose Python source is missing carries a doc
comment starting with `Modelled from the spec:`.
-/

namespace Mackinac

/-! ## Template model data model

A template model is a static bundle of reactions, compounds, complexes,
roles, biomass reactions, and compartments loaded from tabular data files
(docs/templates.rst).
-/

/-- Modelled from the spec: one term of a reaction definition, a
coefficient applied to a compound such as `1 cpd00001_0` (the Python
source that parses the universal reaction table is not included). -/
structure ReactionTerm where
  coefficient : ℚ
  compound : String
deriving DecidableEq, Repr

/-- Modelled from the spec: a functional role entry from the template
model role table (missing Python class `TemplateRole`). -/
structure TemplateRole where
  id : String
  name : String
deriving DecidableEq, Repr

/-- Modelled from the spec: a complex entry linking reactions to roles
(missing Python class `TemplateComplex`). -/
structure TemplateComplex where
  id : String
  roleIds : List String
deriving DecidableEq, Repr

/-- Modelled from the spec: a compound entry from the universal
metabolite table (missing Python class `TemplateCompound`). -/
structure TemplateCompound where
  id : String
  name : String
deriving DecidableEq, Repr

/-- Modelled from the spec: a reaction entry from the template model
reaction table, with its definition split into reactant and product
terms and the complexes that link it to roles (missing Python class
`TemplateReaction`). -/
structure TemplateReaction where
  id : String
  name : String
  complexIds : List String
  reactants : List ReactionTerm
  products : List ReactionTerm
deriving DecidableEq, Repr

/-- Modelled from the spec: a biomass reaction definition of the
template model (missing Python class `TemplateBiomass`). -/
structure TemplateBiomass where
  id : String
  name : String
  terms : List ReactionTerm
deriving DecidableEq, Repr

/-- Modelled from the spec: a cellular compartment entry of the template
model (missing Python class `TemplateCompartment`). -/
structure TemplateCompartment where
  id : String
  name : String
deriving DecidableEq, Repr

/-- Modelled from the spec: the template model built by
`create_template_model()` from the universal and template data folders —
a static bundle of reactions, compounds, complexes, roles, biomass
reactions, and compartments (missing Python class `TemplateModel`). -/
structure TemplateModel where
  id : String
  name : String
  reactions : List TemplateReaction
  compounds : List TemplateCompound
  complexes : List TemplateComplex
  roles : List TemplateRole
  biomasses : List TemplateBiomass
  compartments : List TemplateCompartment
deriving DecidableEq, Repr

/-! ## Reaction list file export (`to_reaction_list_file`)

docs/templates.rst: each line of the reaction list file has the
definition of a reaction; reactions are skipped with a logged warning
when they have no reactants, no products, or a coefficient that is not
valid for fastgapfill (every coefficient in the logged invalid-coefficient
warnings is non-integral).
-/

/-- Modelled from the spec: a coefficient is valid for fastgapfill when
it is integral; every reaction skipped "with invalid coefficient" in the
documented run has a fractional coefficient (missing Python helper in
`mackinac/templates.py`). -/
def validCoefficient (c : ℚ) : Bool :=
  c.den == 1

/-- The cause logged when `to_reaction_list_file` skips a reaction. -/
inductive SkipCause where
  | noReactants
  | noProducts
  | invalidCoefficient
deriving DecidableEq, Repr

/-- A warning reported for a reaction excluded from the reaction list
file; it names the reaction and the cause. -/
structure SkipWarning where
  reactionId : String
  cause : SkipCause
deriving DecidableEq, Repr

/-- One line of the reaction list file: the definition of a reaction,
kept in structured form (reaction ID, reactant terms, product terms). -/
structure ReactionLine where
  reactionId : String
  reactants : List ReactionTerm
  products : List ReactionTerm
deriving DecidableEq, Repr

/-- The line written for a reaction in the reaction list file: its
definition, unchanged. -/
def reactionLine (r : TemplateReaction) : ReactionLine :=
  { reactionId := r.id, reactants := r.reactants, products := r.products }

/-- Modelled from the spec: the reason a reaction is excluded from the
reaction list file, or `none` when it is included (missing Python checks
in `to_reaction_list_file`). -/
def skipCause (r : TemplateReaction) : Option SkipCause :=
  if r.reactants.isEmpty then some .noReactants
  else if r.products.isEmpty then some .noProducts
  else if (r.reactants ++ r.products).all (fun m => validCoefficient m.coefficient) then none
  else some .invalidCoefficient

/-- Modelled from the spec: the single pass of `to_reaction_list_file`
over the template reactions, writing each included reaction's definition
and logging a warning for each excluded reaction (missing Python method
`TemplateModel.to_reaction_list_file`). -/
def reactionListPass : List TemplateReaction → List ReactionLine × List SkipWarning
  | [] => ([], [])
  | r :: rest =>
    let out := reactionListPass rest
    match skipCause r with
    | none => (reactionLine r :: out.1, out.2)
    | some c => (out.1, { reactionId := r.id, cause := c } :: out.2)

/-- Modelled from the spec: `to_reaction_list_file` applied to a
template model, returning the lines of the reaction list file and the
logged warnings. -/
def toReactionListFile (t : TemplateModel) : List ReactionLine × List SkipWarning :=
  reactionListPass t.reactions

/-- The claim-level inclusion condition: at least one reactant, at least
one product, and every coefficient valid for fastgapfill. -/
def includedReaction (r : TemplateReaction) : Prop :=
  r.reactants ≠ [] ∧ r.products ≠ [] ∧
    ∀ m ∈ r.reactants ++ r.products, validCoefficient m.coefficient = true

instance : DecidablePred includedReaction := fun _ =>
  inferInstanceAs (Decidable (_ ∧ _ ∧ _))

/-! ## Role to reaction and reaction to role maps

docs/templates.rst: `map_role_to_reaction()` shows the reactions that are
associated with a list of roles, and `map_reaction_to_role()` shows the
roles that are associated with a list of reactions; both go through the
complexes that link reactions to roles, and some reactions are not
associated with a role (their entry carries an empty roles mapping).
-/

/-- Modelled from the spec: the role IDs linked by the complex with the
given ID, empty when the template has no such complex (missing Python
complex lookup in `TemplateModel`). -/
def rolesOfComplex (t : TemplateModel) (cid : String) : List String :=
  match t.complexes.find? (fun c => c.id == cid) with
  | some c => c.roleIds
  | none => []

/-- Modelled from the spec: the name of the role with the given ID
(missing Python role lookup in `TemplateModel`). -/
def roleNameOf (t : TemplateModel) (fid : String) : String :=
  match t.roles.find? (fun f => f.id == fid) with
  | some f => f.name
  | none => ""

/-- Modelled from the spec: the name of the reaction with the given ID
(missing Python reaction lookup in `TemplateModel`). -/
def reactionNameOf (t : TemplateModel) (rid : String) : String :=
  match t.reactions.find? (fun r => r.id == rid) with
  | some r => r.name
  | none => ""

/-- One reaction listed under a role by `map_role_to_reaction()`: the
reaction ID, the complex that links it to the role, and the reaction
name. -/
structure RoleReactionLink where
  reactionId : String
  complexId : String
  reactionName : String
deriving DecidableEq, Repr

/-- One entry of the `map_role_to_reaction()` result. -/
structure RoleMapEntry where
  roleId : String
  roleName : String
  reactions : List RoleReactionLink
deriving DecidableEq, Repr

/-- One role listed under a reaction by `map_reaction_to_role()`: the
role ID, the complex that links it to the reaction, and the role name. -/
structure ReactionRoleLink where
  roleId : String
  complexId : String
  roleName : String
deriving DecidableEq, Repr

/-- One entry of the `map_reaction_to_role()` result. -/
structure ReactionMapEntry where
  reactionId : String
  reactionName : String
  roles : List ReactionRoleLink
deriving DecidableEq, Repr

/-- Modelled from the spec: the reactions associated with a role,
collected by scanning the template reactions for complexes that link
them to the role (missing Python method
`TemplateModel.map_role_to_reaction`). -/
def reactionsOfRole (t : TemplateModel) (fid : String) : List RoleReactionLink :=
  t.reactions.flatMap (fun r =>
    (r.complexIds.filter (fun cid => decide (fid ∈ rolesOfComplex t cid))).map
      (fun cid => { reactionId := r.id, complexId := cid, reactionName := r.name }))

/-- Modelled from the spec: `map_role_to_reaction()`, one entry per
queried role (missing Python method
`TemplateModel.map_role_to_reaction`). -/
def mapRoleToReaction (t : TemplateModel) (roleIds : List String) : List RoleMapEntry :=
  roleIds.map (fun fid =>
    { roleId := fid, roleName := roleNameOf t fid, reactions := reactionsOfRole t fid })

/-- Modelled from the spec: the roles associated with a reaction through
its complexes, empty when the reaction is linked to no role (missing
Python method `TemplateModel.map_reaction_to_role`). -/
def rolesOfReaction (t : TemplateModel) (rid : String) : List ReactionRoleLink :=
  ((t.reactions.find? (fun r => r.id == rid)).map (fun r =>
    r.complexIds.flatMap (fun cid =>
      (rolesOfComplex t cid).map (fun fid =>
        { roleId := fid, complexId := cid, roleName := roleNameOf t fid })))).getD []

/-- Modelled from the spec: `map_reaction_to_role()`, one entry per
queried reaction, even when the reaction is linked to no role (missing
Python method `TemplateModel.map_reaction_to_role`). -/
def mapReactionToRole (t : TemplateModel) (rxnIds : List String) : List ReactionMapEntry :=
  rxnIds.map (fun rid =>
    { reactionId := rid, reactionName := reactionNameOf t rid, roles := rolesOfReaction t rid })

/-- Reaction `rid` appears under role `fid` with complex `cid` in the
result of `map_role_to_reaction`. -/
def roleMapHasLink (t : TemplateModel) (roleIds : List String)
    (fid rid cid : String) : Prop :=
  ∃ e ∈ mapRoleToReaction t roleIds, e.roleId = fid ∧
    ∃ l ∈ e.reactions, l.reactionId = rid ∧ l.complexId = cid

/-- Role `fid` appears under reaction `rid` with complex `cid` in the
result of `map_reaction_to_role`. -/
def reactionMapHasLink (t : TemplateModel) (rxnIds : List String)
    (rid fid cid : String) : Prop :=
  ∃ e ∈ mapReactionToRole t rxnIds, e.reactionId = rid ∧
    ∃ l ∈ e.roles, l.roleId = fid ∧ l.complexId = cid

/-- A small template model mirroring the example of docs/templates.rst:
reaction rxn00001 is linked through complex cpx01833 to role ftr01232,
and reaction rxn00003 is linked to no role. -/
def demoTemplate : TemplateModel :=
  { id := "bacteria"
    name := "Bacteria template"
    reactions :=
      [ { id := "rxn00001", name := "diphosphate phosphohydrolase"
          complexIds := ["cpx01833"]
          reactants := [⟨1, "cpd00001_0"⟩, ⟨1, "cpd00012_0"⟩]
          products := [⟨2, "cpd00009_0"⟩, ⟨1, "cpd00067_0"⟩] },
        { id := "rxn00003", name := "pyruvate:pyruvate acetaldehydetransferase (decarboxylating)"
          complexIds := []
          reactants := [⟨1, "cpd00020_0"⟩]
          products := [⟨1, "cpd00011_0"⟩] } ]
    compounds := [⟨"cpd00001_0", "H2O"⟩, ⟨"cpd00012_0", "PPi"⟩]
    complexes := [⟨"cpx01833", ["ftr01232"]⟩]
    roles := [⟨"ftr01232", "Inorganic pyrophospatase PpaX"⟩]
    biomasses := []
    compartments := [⟨"c", "Cytosol"⟩, ⟨"e", "Extracellular"⟩] }

/-! ## The four-stage ModelSEED workflow

docs/modelseed notebooks (`src/unnamed/part_006`, `part_007`): there are
four main functions to reconstruct a metabolic model for analysis in
cobrapy.  `reconstruct_modelseed_model()` creates a draft model stored
in the workspace under a model ID; `gapfill_modelseed_model()` and
`optimize_modelseed_model()` operate on the model identified by that ID
(both optional); `create_cobra_model_from_modelseed_model()` converts
the resulting model.
-/

/-- An operation against the ModelSEED service, each identifying the
model it works on by its model ID. -/
inductive MSOp where
  | reconstruct (genomeId modelId : String)
  | gapfill (modelId : String)
  | optimize (modelId : String)
  | createCobra (modelId : String)
  | deleteModel (modelId : String)
deriving DecidableEq, Repr

/-- The model ID an operation names. -/
def MSOp.modelId : MSOp → String
  | .reconstruct _ mid => mid
  | .gapfill mid => mid
  | .optimize mid => mid
  | .createCobra mid => mid
  | .deleteModel mid => mid

/-- Modelled from the spec: the effect of one ModelSEED service call on
the set of model IDs stored in the user's workspace; a stage other than
reconstruct fails (returns `none`) when the model it names does not
exist (the Python functions `reconstruct_modelseed_model`,
`gapfill_modelseed_model`, `optimize_modelseed_model`,
`create_cobra_model_from_modelseed_model`, and `delete_modelseed_model`
are not included in the repository). -/
def applyMSOp (ws : List String) : MSOp → Option (List String)
  | .reconstruct _ mid => some (mid :: ws)
  | .gapfill mid => if mid ∈ ws then some ws else none
  | .optimize mid => if mid ∈ ws then some ws else none
  | .createCobra mid => if mid ∈ ws then some ws else none
  | .deleteModel mid => some (ws.erase mid)

/-- Run a sequence of ModelSEED service calls, failing as soon as one
call names a model that does not exist. -/
def runMSOps (ws : List String) : List MSOp → Option (List String)
  | [] => some ws
  | op :: rest => match applyMSOp ws op with
    | some ws' => runMSOps ws' rest
    | none => none

/-- Modelled from the spec: the four-stage workflow for creating an
analysis-ready model — reconstruct, then optionally gap fill, then
optionally optimize, then convert, all four naming the same model ID
(the notebooks document the call order; the Python driver code is not
included). -/
def fourStageWorkflow (genomeId modelId : String)
    (doGapfill doOptimize : Bool) : List MSOp :=
  [MSOp.reconstruct genomeId modelId] ++
    (if doGapfill then [MSOp.gapfill modelId] else []) ++
    (if doOptimize then [MSOp.optimize modelId] else []) ++
    [MSOp.createCobra modelId]

/-! ## COBRA models and conversion from ModelSEED models

README and the modelseed notebooks: the COBRA model created by
`create_cobra_model_from_modelseed_model()` contains all of the
information from the ModelSEED model, including metabolite data and gene
annotations, and its `id` is the ID of the source model.
-/

/-- Modelled from the spec: a metabolite of a ModelSEED model fetched
from the workspace (missing Python conversion module). -/
structure MSCompound where
  id : String
  name : String
  formula : String
  charge : Int
  compartment : String
deriving DecidableEq, Repr

/-- Modelled from the spec: a gene of a ModelSEED model with its
functional annotation (missing Python conversion module). -/
structure MSGene where
  id : String
  functionText : String
deriving DecidableEq, Repr

/-- Modelled from the spec: a reaction of a ModelSEED model, with its
direction symbol, stoichiometry, and linked genes (missing Python
conversion module). -/
structure MSModelReaction where
  id : String
  name : String
  direction : String
  metabolites : List (String × ℚ)
  geneIds : List String
deriving DecidableEq, Repr

/-- Modelled from the spec: the ModelSEED (or PATRIC) model fetched from
the user's workspace by model ID (missing Python conversion module). -/
structure ModelseedModel where
  id : String
  name : String
  compounds : List MSCompound
  genes : List MSGene
  reactions : List MSModelReaction
deriving DecidableEq, Repr

/-- A metabolite of the COBRA model handed to cobrapy. -/
structure CobraMetabolite where
  id : String
  name : String
  formula : String
  charge : Int
  compartment : String
deriving DecidableEq, Repr

/-- A gene of the COBRA model, carrying the source gene annotation. -/
structure CobraGene where
  id : String
  annot : String
deriving DecidableEq, Repr

/-- A reaction of the COBRA model with flux bounds. -/
structure CobraReaction where
  id : String
  name : String
  lowerBound : ℚ
  upperBound : ℚ
  metabolites : List (String × ℚ)
  geneIds : List String
deriving DecidableEq, Repr

/-- The COBRA model consumable by cobrapy. -/
structure CobraModel where
  id : String
  name : String
  metabolites : List CobraMetabolite
  genes : List CobraGene
  reactions : List CobraReaction
deriving DecidableEq, Repr

/-- Modelled from the spec: metabolite conversion keeps all metabolite
data (missing Python conversion module). -/
def convertCompound (c : MSCompound) : CobraMetabolite :=
  { id := c.id, name := c.name, formula := c.formula
    charge := c.charge, compartment := c.compartment }

/-- Modelled from the spec: gene conversion keeps the gene annotation
(missing Python conversion module). -/
def convertGene (g : MSGene) : CobraGene :=
  { id := g.id, annot := g.functionText }

/-- Modelled from the spec: flux bounds derived from the ModelSEED
direction symbol — `<` reverse only, `>` forward only, otherwise
reversible (missing Python conversion module). -/
def boundsOfDirection (d : String) : ℚ × ℚ :=
  if d == "<" then (-1000, 0)
  else if d == ">" then (0, 1000)
  else (-1000, 1000)

/-- Modelled from the spec: reaction conversion keeps the
stoichiometry and gene links and derives flux bounds from the direction
(missing Python conversion module). -/
def convertReaction (r : MSModelReaction) : CobraReaction :=
  { id := r.id, name := r.name
    lowerBound := (boundsOfDirection r.direction).1
    upperBound := (boundsOfDirection r.direction).2
    metabolites := r.metabolites, geneIds := r.geneIds }

/-- Modelled from the spec: `create_cobra_model_from_modelseed_model()`
converts the ModelSEED model fetched from the workspace into a COBRA
model with the same ID and all metabolite and gene information (missing
Python function `create_cobra_model_from_modelseed_model`). -/
def createCobraModelFromModelseedModel (m : ModelseedModel) : CobraModel :=
  { id := m.id, name := m.name
    metabolites := m.compounds.map convertCompound
    genes := m.genes.map convertGene
    reactions := m.reactions.map convertReaction }

/-- Modelled from the spec: `create_cobra_model_from_patric_model()`
performs the same conversion for a PATRIC model, which is held in the
same representation in the `home/models` folder of the workspace
(missing Python function `create_cobra_model_from_patric_model`). -/
def createCobraModelFromPatricModel (m : ModelseedModel) : CobraModel :=
  createCobraModelFromModelseedModel m

/-! ## Template model sessions

docs/templates.rst and docs/reconstruct.rst: a template model is used
only as a lookup/translation table — queried by the two maps, exported
to a COBRA model or a reaction list file, saved back to data files, and
used as the source when reconstructing a draft model from genome
features — and is never mutated after construction.
-/

/-- Modelled from the spec: `to_cobra_model()` creates a universal COBRA
model from the template model, with every template reaction made
reversible (missing Python method `TemplateModel.to_cobra_model`). -/
def templateToCobraModel (t : TemplateModel) : CobraModel :=
  { id := t.id, name := t.name
    metabolites := t.compounds.map (fun c =>
      { id := c.id, name := c.name, formula := "", charge := 0, compartment := "" })
    genes := []
    reactions := t.reactions.map (fun r =>
      { id := r.id, name := r.name, lowerBound := -1000, upperBound := 1000
        metabolites := r.reactants.map (fun m => (m.compound, -m.coefficient)) ++
          r.products.map (fun m => (m.compound, m.coefficient))
        geneIds := [] }) }

/-- A draft model reconstructed locally from a template model and the
functional-role annotations of a genome's features. -/
structure DraftModel where
  id : String
  templateId : String
  reactionIds : List String
deriving DecidableEq, Repr

/-- Modelled from the spec: `reconstruct_model_from_features()` matches
the features' functional roles to the template roles with a known
linkage to reactions and collects the linked reactions into a draft
model (missing Python function `reconstruct_model_from_features`). -/
def reconstructModelFromFeatures (t : TemplateModel) (featureRoles : List String)
    (modelId : String) : DraftModel :=
  { id := modelId, templateId := t.id
    reactionIds :=
      (featureRoles.flatMap (fun fid => (reactionsOfRole t fid).map
        (fun l => l.reactionId))).dedup }

/-- The state of a working session holding a constructed template model
together with the artifacts produced from it. -/
structure TemplateSession where
  template : TemplateModel
  roleQueries : List (List RoleMapEntry)
  reactionQueries : List (List ReactionMapEntry)
  cobraModels : List CobraModel
  reactionFiles : List (String × (List ReactionLine × List SkipWarning))
  savedTemplates : List (String × TemplateModel)
  draftModels : List DraftModel
deriving Repr

/-- An operation that uses a constructed template model. -/
inductive TemplateOp where
  | mapRole (roleIds : List String)
  | mapReaction (rxnIds : List String)
  | toCobra
  | toReactionList (path : String)
  | saveTemplate (folder : String)
  | reconstructFromFeatures (featureRoles : List String) (modelId : String)
deriving DecidableEq, Repr

/-- Modelled from the spec: the effect of one template model operation
on the session — each operation computes its artifact from the template
and records it, and none replaces the template (the Python
`TemplateModel` methods and `save_modelseed_template_model` are not
included in the repository). -/
def applyTemplateOp (s : TemplateSession) : TemplateOp → TemplateSession
  | .mapRole q =>
    { s with roleQueries := mapRoleToReaction s.template q :: s.roleQueries }
  | .mapReaction q =>
    { s with reactionQueries := mapReactionToRole s.template q :: s.reactionQueries }
  | .toCobra =>
    { s with cobraModels := templateToCobraModel s.template :: s.cobraModels }
  | .toReactionList path =>
    { s with reactionFiles := (path, toReactionListFile s.template) :: s.reactionFiles }
  | .saveTemplate folder =>
    { s with savedTemplates := (folder, s.template) :: s.savedTemplates }
  | .reconstructFromFeatures fr mid =>
    { s with draftModels :=
        reconstructModelFromFeatures s.template fr mid :: s.draftModels }

/-- Run a sequence of template model operations on a session. -/
def runTemplateOps (s : TemplateSession) : List TemplateOp → TemplateSession
  | [] => s
  | op :: rest => runTemplateOps (applyTemplateOp s op) rest

/-- A concrete gene mirroring the feature annotation shown in the
genome notebook. -/
def demoMSGene : MSGene :=
  { id := "fig|226186.12.peg.2881"
    functionText := "Dipeptidyl carboxypeptidase Dcp (EC 3.4.15.5)" }

/-- A small concrete ModelSEED model mirroring the `Btheta` model of the
modelseed notebook. -/
def demoMSModel : ModelseedModel :=
  { id := "Btheta", name := "Bacteroides thetaiotaomicron VPI-5482"
    compounds := [⟨"cpd00001_c0", "H2O", "H2O", 0, "c0"⟩]
    genes := [demoMSGene]
    reactions := [⟨"rxn00001_c0", "diphosphate phosphohydrolase", "=",
      [("cpd00001_c0", -1)], ["fig|226186.12.peg.2881"]⟩] }

/-! ## Genome lookup client

`src/unnamed/part_003` and the genome notebook: `get_genome_summary()`
returns the flat record of organism metadata for a genome ID, and
`get_genome_features()` returns a list with detailed information about
each feature; if the feature is a coding sequence, the returned data
also includes the amino acid sequence.
-/

/-- Look up the value stored under a string key in an association
list. -/
def lookupKey {α : Type} (l : List (String × α)) (k : String) : Option α :=
  (l.find? (fun p => p.1 == k)).map (fun p => p.2)

/-- Modelled from the spec: the flat genome summary record returned by
the PATRIC data API (the Python `genome.py` module is not included);
only the recurring fields are kept. -/
structure GenomeSummary where
  genomeId : String
  genomeName : String
  taxonId : Nat
  genomeLength : Nat
  patricCds : Nat
deriving DecidableEq, Repr

/-- Modelled from the spec: a feature record as stored by the service,
with the MD5 key that links a coding sequence to its amino acid
sequence (missing Python `genome.py` module). -/
structure RawFeature where
  patricId : String
  featureType : String
  naSequence : String
  aaSequenceMd5 : String
  annotationSource : String
deriving DecidableEq, Repr

/-- A feature record as returned by `get_genome_features()`; for a
coding sequence the record additionally includes the amino acid
sequence. -/
structure FeatureRecord where
  patricId : String
  featureType : String
  naSequence : String
  aaSequence : Option String
  annotationSource : String
deriving DecidableEq, Repr

/-- A fixed response fixture of the remote genome service: summaries
and features keyed by genome ID, and amino acid sequences keyed by
MD5. -/
structure GenomeService where
  summaries : List (String × GenomeSummary)
  features : List (String × List RawFeature)
  sequences : List (String × String)
deriving DecidableEq, Repr

/-- Modelled from the spec: `get_genome_summary()` returns the summary
record from the service response unchanged (missing Python function
`get_genome_summary`). -/
def getGenomeSummary (svc : GenomeService) (genomeId : String) : Option GenomeSummary :=
  lookupKey svc.summaries genomeId

/-- The raw features of a genome for a given annotation. -/
def rawFeaturesOf (svc : GenomeService) (genomeId ann : String) : List RawFeature :=
  ((lookupKey svc.features genomeId).getD []).filter
    (fun f => f.annotationSource == ann)

/-- Modelled from the spec: `get_genome_features()` returns one record
per feature of the requested annotation, adding the amino acid sequence
to every coding-sequence record (missing Python function
`get_genome_features`). -/
def getGenomeFeatures (svc : GenomeService) (genomeId ann : String) : List FeatureRecord :=
  (rawFeaturesOf svc genomeId ann).map (fun f =>
    { patricId := f.patricId, featureType := f.featureType
      naSequence := f.naSequence
      aaSequence := if f.featureType == "CDS"
        then lookupKey svc.sequences f.aaSequenceMd5 else none
      annotationSource := f.annotationSource })

/-- The concrete summary record of genome 226186.12 from the genome
notebook. -/
def demoGenomeSummary : GenomeSummary :=
  { genomeId := "226186.12"
    genomeName := "Bacteroides thetaiotaomicron VPI-5482"
    taxonId := 226186, genomeLength := 6293399, patricCds := 4872 }

/-- A concrete service fixture mirroring genome 226186.12 of the genome
notebook, with one coding-sequence feature and one RNA feature. -/
def demoGenomeService : GenomeService :=
  { summaries := [("226186.12", demoGenomeSummary)]
    features := [("226186.12",
      [ { patricId := "fig|226186.12.peg.2881", featureType := "CDS"
          naSequence := "atgatgattagaaaaact", aaSequenceMd5 := "md5cds"
          annotationSource := "PATRIC" },
        { patricId := "fig|226186.12.rna.1", featureType := "rRNA"
          naSequence := "gttacgact", aaSequenceMd5 := ""
          annotationSource := "PATRIC" } ])]
    sequences := [("md5cds", "MMIRKT")] }

/-! ## Solution lists and flux balance analysis solutions

`src/unnamed/part_004` and docs/patric-advanced.rst: there can be
multiple gap fill and fba solutions for a model and the returned lists
are sorted from newest to oldest; in an fba solution the `exchanges` key
is a dictionary keyed by metabolite ID, metabolites with a positive
flux are consumed and metabolites with a negative flux are produced.
-/

/-- A reaction added to the model by a gap fill solution. -/
structure GapfillReaction where
  reactionId : String
  direction : String
  compartment : String
deriving DecidableEq, Repr

/-- One gap fill solution computed by the service, stamped with its run
date. -/
structure GapfillSolution where
  rundate : Nat
  solutionId : String
  reactions : List (String × GapfillReaction)
deriving DecidableEq, Repr

/-- A bounds-and-flux entry of an fba solution (`exchanges` and
`reactions` values). -/
structure ExchangeEntry where
  lowerBound : ℚ
  upperBound : ℚ
  x : ℚ
deriving DecidableEq, Repr

/-- One flux balance analysis solution computed by the service, stamped
with its run date. -/
structure FBASolution where
  rundate : Nat
  objective : ℚ
  exchanges : List (String × ExchangeEntry)
  reactions : List (String × ExchangeEntry)
deriving DecidableEq, Repr

/-- A model stored in the user's workspace together with the solutions
the service has computed for it. -/
structure StoredModel where
  id : String
  gapfills : List GapfillSolution
  fbas : List FBASolution
deriving DecidableEq, Repr

/-- Insert an element into a list kept sorted from newest to oldest
according to the date projection `d`. -/
def insertNewest {α : Type} (d : α → Nat) (x : α) : List α → List α
  | [] => [x]
  | y :: rest => if d y ≤ d x then x :: y :: rest else y :: insertNewest d x rest

/-- Sort a list from newest to oldest according to the date projection
`d` (insertion sort). -/
def sortNewestFirst {α : Type} (d : α → Nat) : List α → List α
  | [] => []
  | x :: rest => insertNewest d x (sortNewestFirst d rest)

/-- The list `l` is ordered from newest to oldest under the date
projection `d`. -/
def newestFirst {α : Type} (d : α → Nat) (l : List α) : Prop :=
  l.Pairwise (fun a b => d b ≤ d a)

/-- Modelled from the spec: `get_modelseed_gapfill_solutions()` returns
the model's gap fill solutions sorted from newest to oldest (missing
Python function `get_modelseed_gapfill_solutions`). -/
def getModelseedGapfillSolutions (m : StoredModel) : List GapfillSolution :=
  sortNewestFirst (fun s => s.rundate) m.gapfills

/-- Modelled from the spec: `get_patric_gapfill_solutions()` returns
the model's gap fill solutions sorted from newest to oldest (missing
Python function `get_patric_gapfill_solutions`). -/
def getPatricGapfillSolutions (m : StoredModel) : List GapfillSolution :=
  sortNewestFirst (fun s => s.rundate) m.gapfills

/-- Modelled from the spec: `get_modelseed_fba_solutions()` returns the
model's fba solutions sorted from newest to oldest (missing Python
function `get_modelseed_fba_solutions`). -/
def getModelseedFbaSolutions (m : StoredModel) : List FBASolution :=
  sortNewestFirst (fun s => s.rundate) m.fbas

/-- Modelled from the spec: `get_patric_fba_solutions()` returns the
model's fba solutions sorted from newest to oldest (missing Python
function `get_patric_fba_solutions`). -/
def getPatricFbaSolutions (m : StoredModel) : List FBASolution :=
  sortNewestFirst (fun s => s.rundate) m.fbas

/-- A metabolite with positive flux in an fba exchange entry is
consumed (docs convention). -/
def consumedMet (e : ExchangeEntry) : Prop :=
  0 < e.x

/-- A metabolite with negative flux in an fba exchange entry is
produced (docs convention). -/
def producedMet (e : ExchangeEntry) : Prop :=
  e.x < 0

/-- An fba solution is valid when every exchange flux lies between its
bounds — the linear-programming feasibility contract of the remote
solver. -/
def validFBASolution (s : FBASolution) : Prop :=
  ∀ p ∈ s.exchanges, p.2.lowerBound ≤ p.2.x ∧ p.2.x ≤ p.2.upperBound

instance : DecidablePred validFBASolution := fun s =>
  inferInstanceAs (Decidable (∀ p ∈ s.exchanges, _ ∧ _))

/-- A model with no gap fill solutions, as in the PATRIC example of
docs/patric-advanced.rst where indexing the returned list raises
`IndexError`. -/
def demoEmptyModel : StoredModel :=
  { id := "Btheta", gapfills := [], fbas := [] }

/-- The older of two concrete gap fill solutions. -/
def demoGapfillOld : GapfillSolution :=
  { rundate := 20170120, solutionId := "gf.0"
    reactions := [("rxn00086_c0", ⟨"rxn00086_c0", "<", "c0"⟩)] }

/-- The newer of two concrete gap fill solutions. -/
def demoGapfillNew : GapfillSolution :=
  { rundate := 20180618, solutionId := "gf.1", reactions := [] }

/-- The fba exchange entry documented for metabolite `cpd00001_e0`. -/
def demoFBAExchange : ExchangeEntry :=
  { lowerBound := -1000, upperBound := 100, x := -830615/1000 }

/-- A concrete fba solution carrying the documented exchange entry. -/
def demoFBASolution : FBASolution :=
  { rundate := 20170120, objective := 999203/10000
    exchanges := [("cpd00001_e0", demoFBAExchange)]
    reactions := [("rxn00086_c0",
      { lowerBound := -1000, upperBound := 0, x := -1547/10000 })] }

/-- A concrete stored model carrying the fba exchange entry documented
for metabolite `cpd00001_e0` and two gap fill solutions with distinct
run dates. -/
def demoStoredModel : StoredModel :=
  { id := "226186.12"
    gapfills := [demoGapfillOld, demoGapfillNew]
    fbas := [demoFBASolution] }

/-! ## Authentication tokens

`src/unnamed/part_007` and docs/configure.rst: `get_token()` stores the
authentication token in the `.patric_config` file in the home directory
and returns the user ID that identifies the user's workspace; the token
can be used until it expires.
-/

/-- An authentication token issued by the PATRIC authentication
service. -/
structure AuthToken where
  userId : String
  tokenValue : String
  expiry : Nat
deriving DecidableEq, Repr

/-- The contents of the `.patric_config` file in the user's home
directory. -/
structure PatricConfig where
  token : Option AuthToken
deriving DecidableEq, Repr

/-- Modelled from the spec: the lifetime of an issued token — the exact
duration is set by the remote authentication service; only that tokens
expire matters here. -/
def tokenLifetime : Nat :=
  5184000

/-- Modelled from the spec: the token issued for a PATRIC username by
the authentication service, whose user ID is the username qualified with
the PATRIC realm (missing Python `get_token` internals). -/
def issueToken (username : String) (now : Nat) : AuthToken :=
  { userId := username ++ "@patricbrc.org"
    tokenValue := "un=" ++ username ++ "@patricbrc.org"
    expiry := now + tokenLifetime }

/-- Modelled from the spec: `get_token()` prompts for the password,
stores the issued token in the `.patric_config` file, and returns the
user ID that identifies the user's workspace (missing Python function
`get_token`). -/
def getToken (username : String) (now : Nat) (_cfg : PatricConfig) :
    String × PatricConfig :=
  ((issueToken username now).userId, { token := some (issueToken username now) })

/-- How a service call obtained its credentials. -/
structure CallAuth where
  usedToken : Option AuthToken
  promptedForPassword : Bool
deriving DecidableEq, Repr

/-- Modelled from the spec: a subsequent service call reuses the token
stored in the `.patric_config` file without prompting again as long as
the token has not expired (missing Python client authentication
handling). -/
def serviceCallAuth (cfg : PatricConfig) (now : Nat) : CallAuth :=
  match cfg.token with
  | some tok =>
    if now < tok.expiry
      then { usedToken := some tok, promptedForPassword := false }
      else { usedToken := none, promptedForPassword := true }
  | none => { usedToken := none, promptedForPassword := true }

/-! ## Theorems -/

lemma skipCause_eq_none_iff (r : TemplateReaction) :
    skipCause r = none ↔ includedReaction r := by
  rw [skipCause, includedReaction]
  split_ifs with h1 h2 h3 <;>
    simp_all [List.isEmpty_iff, List.all_eq_true]
  · rintro m (hm | hm)
    · exact h3.1 m hm
    · exact h3.2 m hm
  · by_cases hr : ∀ x ∈ r.reactants, validCoefficient x.coefficient = true
    · obtain ⟨x, hx, hv⟩ := h3 hr
      exact ⟨x, Or.inr hx, hv⟩
    · push_neg at hr
      obtain ⟨x, hx, hv⟩ := hr
      exact ⟨x, Or.inl hx, by simpa using hv⟩

lemma reactionListPass_lines (rs : List TemplateReaction) :
    (reactionListPass rs).1 =
      (rs.filter (fun r => decide (includedReaction r))).map reactionLine := by
  induction rs with
  | nil => rfl
  | cons r rest ih =>
    by_cases h : includedReaction r
    · have hc : skipCause r = none := (skipCause_eq_none_iff r).mpr h
      simp [reactionListPass, hc, List.filter_cons, h, ih]
    · have hc : skipCause r ≠ none := fun hn => h ((skipCause_eq_none_iff r).mp hn)
      rcases ho : skipCause r with _ | c
      · exact absurd ho hc
      · simp [reactionListPass, ho, List.filter_cons, h, ih]

lemma reactionListPass_warnings (rs : List TemplateReaction) :
    (reactionListPass rs).2 =
      rs.filterMap (fun r => (skipCause r).map
        (fun c => { reactionId := r.id, cause := c : SkipWarning })) := by
  induction rs with
  | nil => rfl
  | cons r rest ih =>
    rcases ho : skipCause r with _ | c <;>
      simp [reactionListPass, ho, List.filterMap_cons, ih]

/-- C1: for every reaction of a template model, `to_reaction_list_file`
writes the reaction's definition unchanged if and only if the reaction
has at least one reactant, at least one product, and only coefficients
valid for fastgapfill; the written lines are exactly the definitions of
the included reactions in order, and every excluded reaction is reported
by a warning naming the reaction and the cause of its exclusion. -/
theorem to_reaction_list_file_spec (t : TemplateModel) :
    (toReactionListFile t).1 =
      (t.reactions.filter (fun r => decide (includedReaction r))).map reactionLine ∧
    (∀ r, skipCause r = none ↔ includedReaction r) ∧
    (toReactionListFile t).2 =
      t.reactions.filterMap (fun r => (skipCause r).map
        (fun c => { reactionId := r.id, cause := c : SkipWarning })) := by
  refine ⟨reactionListPass_lines t.reactions, skipCause_eq_none_iff,
    reactionListPass_warnings t.reactions⟩

lemma find_reaction_of_nodup {l : List TemplateReaction}
    (h : (l.map TemplateReaction.id).Nodup) {r : TemplateReaction} (hr : r ∈ l) :
    l.find? (fun x => x.id == r.id) = some r := by
  induction l with
  | nil => cases hr
  | cons a tl ih =>
    rw [List.map_cons, List.nodup_cons] at h
    rcases List.mem_cons.mp hr with rfl | hr
    · exact List.find?_cons_of_pos _ (by simp)
    · have hne : a.id ≠ r.id := by
        intro he
        exact h.1 (by rw [he]; exact List.mem_map_of_mem _ hr)
      rw [List.find?_cons_of_neg _ (by simpa using hne)]
      exact ih h.2 hr

lemma roleMapHasLink_iff (t : TemplateModel) (roleIds : List String)
    (fid rid cid : String) (hf : fid ∈ roleIds) :
    roleMapHasLink t roleIds fid rid cid ↔
      ∃ r ∈ t.reactions, r.id = rid ∧ cid ∈ r.complexIds ∧ fid ∈ rolesOfComplex t cid := by
  constructor
  · rintro ⟨e, he, hrole, l, hl, hlr, hlc⟩
    rw [mapRoleToReaction, List.mem_map] at he
    obtain ⟨fid', hfid', rfl⟩ := he
    obtain rfl : fid' = fid := hrole
    rw [reactionsOfRole] at hl
    simp only [List.mem_flatMap, List.mem_map, List.mem_filter, decide_eq_true_eq] at hl
    obtain ⟨r, hrm, cid', ⟨hcm, hfr⟩, rfl⟩ := hl
    obtain rfl : r.id = rid := hlr
    obtain rfl : cid' = cid := hlc
    exact ⟨r, hrm, rfl, hcm, hfr⟩
  · rintro ⟨r, hrm, hid, hcm, hfr⟩
    refine ⟨⟨fid, roleNameOf t fid, reactionsOfRole t fid⟩, ?_, rfl, ?_⟩
    · rw [mapRoleToReaction, List.mem_map]
      exact ⟨fid, hf, rfl⟩
    · refine ⟨⟨r.id, cid, r.name⟩, ?_, hid, rfl⟩
      rw [reactionsOfRole]
      simp only [List.mem_flatMap, List.mem_map, List.mem_filter, decide_eq_true_eq]
      exact ⟨r, hrm, cid, ⟨hcm, hfr⟩, rfl⟩

lemma reactionMapHasLink_iff (t : TemplateModel) (rxnIds : List String)
    (rid fid cid : String) (hr : rid ∈ rxnIds) :
    reactionMapHasLink t rxnIds rid fid cid ↔
      ∃ r, t.reactions.find? (fun x => x.id == rid) = some r ∧
        cid ∈ r.complexIds ∧ fid ∈ rolesOfComplex t cid := by
  constructor
  · rintro ⟨e, he, hre, l, hl, hlf, hlc⟩
    rw [mapReactionToRole, List.mem_map] at he
    obtain ⟨rid', hrid', rfl⟩ := he
    obtain rfl : rid' = rid := hre
    rw [rolesOfReaction] at hl
    rcases hfind : t.reactions.find? (fun x => x.id == rid') with _ | r
    · rw [hfind] at hl
      cases hl
    · rw [hfind] at hl
      simp only [Option.map_some', Option.getD_some, List.mem_flatMap, List.mem_map] at hl
      obtain ⟨cid', hcm, fid', hfr, rfl⟩ := hl
      obtain rfl : fid' = fid := hlf
      obtain rfl : cid' = cid := hlc
      exact ⟨r, hfind, hcm, hfr⟩
  · rintro ⟨r, hfind, hcm, hfr⟩
    refine ⟨⟨rid, reactionNameOf t rid, rolesOfReaction t rid⟩, ?_, rfl, ?_⟩
    · rw [mapReactionToRole, List.mem_map]
      exact ⟨rid, hr, rfl⟩
    · refine ⟨⟨fid, cid, roleNameOf t fid⟩, ?_, rfl, rfl⟩
      rw [rolesOfReaction, hfind]
      simp only [Option.map_some', Option.getD_some, List.mem_flatMap, List.mem_map]
      exact ⟨cid, hcm, fid, hfr, rfl⟩

/-- C2: through the complex linkage the two maps are mutually inverse:
for a template model whose reaction IDs are distinct, a queried reaction
`rid` appears under a queried role `fid` with complex `cid` in
`map_role_to_reaction` if and only if role `fid` appears under reaction
`rid` with the same complex `cid` in `map_reaction_to_role`; and every
queried reaction gets an entry in `map_reaction_to_role`, a reaction
linked to no role included (its roles mapping is then empty rather than
the entry being omitted). -/
theorem map_role_reaction_mutually_inverse
    (t : TemplateModel) (roleIds rxnIds : List String) (fid rid cid : String)
    (hids : (t.reactions.map TemplateReaction.id).Nodup)
    (hf : fid ∈ roleIds) (hr : rid ∈ rxnIds) :
    (roleMapHasLink t roleIds fid rid cid ↔ reactionMapHasLink t rxnIds rid fid cid) ∧
    ∀ rid' ∈ rxnIds, ∃ e ∈ mapReactionToRole t rxnIds, e.reactionId = rid' := by
  constructor
  · rw [roleMapHasLink_iff t roleIds fid rid cid hf,
      reactionMapHasLink_iff t rxnIds rid fid cid hr]
    constructor
    · rintro ⟨r, hrm, rfl, hcm, hfr⟩
      exact ⟨r, find_reaction_of_nodup hids hrm, hcm, hfr⟩
    · rintro ⟨r, hfind, hcm, hfr⟩
      have hid := List.find?_some hfind
      simp only [beq_iff_eq] at hid
      exact ⟨r, List.mem_of_find?_eq_some hfind, hid, hcm, hfr⟩
  · intro rid' hrid'
    exact ⟨_, List.mem_map_of_mem _ hrid', rfl⟩

/-- Witness for C2 on the documented example template. -/
theorem map_role_reaction_mutually_inverse_witness :
    (roleMapHasLink demoTemplate ["ftr01232"] "ftr01232" "rxn00001" "cpx01833" ↔
      reactionMapHasLink demoTemplate ["rxn00001", "rxn00003"] "rxn00001" "ftr01232" "cpx01833") ∧
    ∀ rid' ∈ ["rxn00001", "rxn00003"],
      ∃ e ∈ mapReactionToRole demoTemplate ["rxn00001", "rxn00003"], e.reactionId = rid' :=
  map_role_reaction_mutually_inverse demoTemplate ["ftr01232"] ["rxn00001", "rxn00003"]
    "ftr01232" "rxn00001" "cpx01833" (by decide) (by decide) (by decide)

/-- C3: from any workspace, the four stages run in the order
reconstruct, gap fill, optimize, convert — with the middle two stages
optional — always succeed: because reconstruct stores the model under
the given ID first and the later stages keep it, every stage other than
reconstruct finds the model it names already existing, so no stage runs
before the model it names exists. -/
theorem four_stage_workflow_runs (ws : List String) (genomeId modelId : String)
    (doGapfill doOptimize : Bool) :
    runMSOps ws (fourStageWorkflow genomeId modelId doGapfill doOptimize) =
      some (modelId :: ws) := by
  cases doGapfill <;> cases doOptimize <;>
    simp [fourStageWorkflow, runMSOps, applyMSOp]

lemma runTemplateOps_template (s : TemplateSession) (ops : List TemplateOp) :
    (runTemplateOps s ops).template = s.template := by
  induction ops generalizing s with
  | nil => rfl
  | cons op rest ih =>
    rw [runTemplateOps, ih]
    cases op <;> rfl

/-- C4: a template model is never mutated after construction — after any
sequence of the operations that use a constructed template model
(`map_role_to_reaction`, `map_reaction_to_role`, `to_cobra_model`,
`to_reaction_list_file`, `save_modelseed_template_model`, and
reconstructing a draft model from it), the template model's reactions,
compounds, complexes, roles, biomass reactions, and compartments are
unchanged. -/
theorem template_model_never_mutated (s : TemplateSession) (ops : List TemplateOp) :
    (runTemplateOps s ops).template.reactions = s.template.reactions ∧
    (runTemplateOps s ops).template.compounds = s.template.compounds ∧
    (runTemplateOps s ops).template.complexes = s.template.complexes ∧
    (runTemplateOps s ops).template.roles = s.template.roles ∧
    (runTemplateOps s ops).template.biomasses = s.template.biomasses ∧
    (runTemplateOps s ops).template.compartments = s.template.compartments ∧
    (runTemplateOps s ops).template = s.template := by
  rw [runTemplateOps_template s ops]
  exact ⟨rfl, rfl, rfl, rfl, rfl, rfl, rfl⟩

/-- C5: the COBRA model created from a ModelSEED model (and likewise
from a PATRIC model) has the source model's ID and contains all of the
information from the source model: every metabolite with its data, every
gene with its annotation, and every reaction with its stoichiometry and
gene links. -/
theorem create_cobra_model_from_modelseed_model_spec (m : ModelseedModel) :
    (createCobraModelFromModelseedModel m).id = m.id ∧
    (createCobraModelFromPatricModel m).id = m.id ∧
    (∀ c ∈ m.compounds,
      convertCompound c ∈ (createCobraModelFromModelseedModel m).metabolites ∧
      (convertCompound c).id = c.id ∧ (convertCompound c).name = c.name ∧
      (convertCompound c).formula = c.formula ∧ (convertCompound c).charge = c.charge ∧
      (convertCompound c).compartment = c.compartment) ∧
    (∀ g ∈ m.genes,
      convertGene g ∈ (createCobraModelFromModelseedModel m).genes ∧
      (convertGene g).id = g.id ∧ (convertGene g).annot = g.functionText) ∧
    (∀ r ∈ m.reactions,
      convertReaction r ∈ (createCobraModelFromModelseedModel m).reactions ∧
      (convertReaction r).id = r.id ∧ (convertReaction r).name = r.name ∧
      (convertReaction r).metabolites = r.metabolites ∧
      (convertReaction r).geneIds = r.geneIds) ∧
    createCobraModelFromPatricModel m = createCobraModelFromModelseedModel m := by
  refine ⟨rfl, rfl, ?_, ?_, ?_, rfl⟩
  · intro c hc
    exact ⟨List.mem_map_of_mem _ hc, rfl, rfl, rfl, rfl, rfl⟩
  · intro g hg
    exact ⟨List.mem_map_of_mem _ hg, rfl, rfl⟩
  · intro r hr
    exact ⟨List.mem_map_of_mem _ hr, rfl, rfl, rfl, rfl⟩

/-- Witness for C5 on a small concrete ModelSEED model. -/
theorem create_cobra_model_from_modelseed_model_witness :
    (createCobraModelFromModelseedModel demoMSModel).id = "Btheta" ∧
    convertGene demoMSGene ∈ (createCobraModelFromModelseedModel demoMSModel).genes ∧
    (convertGene demoMSGene).annot = demoMSGene.functionText := by
  obtain ⟨h1, _, _, hg, _, _⟩ := create_cobra_model_from_modelseed_model_spec demoMSModel
  obtain ⟨hmem, _, hannot⟩ := hg demoMSGene (by simp [demoMSModel, demoMSGene])
  exact ⟨h1, hmem, hannot⟩

lemma lookupKey_mem {α : Type} {l : List (String × α)} {k : String} {v : α}
    (h : lookupKey l k = some v) : (k, v) ∈ l := by
  rw [lookupKey] at h
  rcases hf : l.find? (fun p => p.1 == k) with _ | p
  · rw [hf] at h
    cases h
  · rw [hf] at h
    simp only [Option.map_some', Option.some.injEq] at h
    have hk := List.find?_some hf
    simp only [beq_iff_eq] at hk
    have hm := List.mem_of_find?_eq_some hf
    rw [← hk, ← h]
    exact hm

/-- C6: against a fixed service response whose summary records carry
their own key and whose coding sequences all have a stored amino acid
sequence, `get_genome_summary` returns the stored record unchanged with
its `genome_id` equal to the requested identifier, and
`get_genome_features` returns one record per feature of the requested
annotation in which every coding-sequence record includes the amino
acid sequence. -/
theorem genome_client_spec (svc : GenomeService) (genomeId ann : String)
    (hkey : ∀ p ∈ svc.summaries, (p.2 : GenomeSummary).genomeId = p.1)
    (hseq : ∀ q ∈ svc.features, ∀ f ∈ (q.2 : List RawFeature),
      f.featureType = "CDS" → (lookupKey svc.sequences f.aaSequenceMd5).isSome = true) :
    (∀ s, getGenomeSummary svc genomeId = some s →
      (genomeId, s) ∈ svc.summaries ∧ s.genomeId = genomeId) ∧
    (getGenomeFeatures svc genomeId ann).length =
      (rawFeaturesOf svc genomeId ann).length ∧
    (∀ fr ∈ getGenomeFeatures svc genomeId ann,
      fr.featureType = "CDS" → fr.aaSequence.isSome = true) := by
  refine ⟨?_, List.length_map _ _, ?_⟩
  · intro s hs
    have hm := lookupKey_mem hs
    exact ⟨hm, hkey (genomeId, s) hm⟩
  · intro fr hfr hcds
    rw [getGenomeFeatures, List.mem_map] at hfr
    obtain ⟨f, hf, rfl⟩ := hfr
    have hft : f.featureType = "CDS" := hcds
    rw [rawFeaturesOf] at hf
    rcases hlook : lookupKey svc.features genomeId with _ | fl
    · rw [hlook] at hf
      cases hf
    · rw [hlook] at hf
      simp only [Option.getD_some] at hf
      have hmem : f ∈ fl := List.mem_of_mem_filter hf
      have hsome := hseq (genomeId, fl) (lookupKey_mem hlook) f hmem hft
      simp only [hft]
      simpa using hsome

/-- Witness for C6 on the concrete genome service fixture. -/
theorem genome_client_spec_witness :
    ("226186.12", demoGenomeSummary) ∈ demoGenomeService.summaries ∧
    demoGenomeSummary.genomeId = "226186.12" ∧
    (getGenomeFeatures demoGenomeService "226186.12" "PATRIC").length =
      (rawFeaturesOf demoGenomeService "226186.12" "PATRIC").length := by
  obtain ⟨hs, hlen, _⟩ := genome_client_spec demoGenomeService "226186.12" "PATRIC"
    (by decide) (by decide)
  obtain ⟨hmem, hid⟩ := hs demoGenomeSummary (by decide)
  exact ⟨hmem, hid, hlen⟩

/-- C7: remote lookups have no designed error taxonomy — each accessor
is a single pure lookup with no retry, backoff, or recovery pass — so a
model with no gap fill solutions yields the empty list, and asking for
the first solution of that list is an ordinary out-of-range lookup
failure (`IndexError` in Python, `none` here). -/
theorem gapfill_solutions_empty_lookup_failure (m : StoredModel)
    (h : m.gapfills = []) :
    getPatricGapfillSolutions m = [] ∧
    (getPatricGapfillSolutions m)[0]? = none := by
  rw [getPatricGapfillSolutions, h]
  exact ⟨rfl, rfl⟩

/-- Witness for C7 on a concrete model with no gap fill solutions. -/
theorem gapfill_solutions_empty_lookup_failure_witness :
    getPatricGapfillSolutions demoEmptyModel = [] ∧
    (getPatricGapfillSolutions demoEmptyModel)[0]? = none :=
  gapfill_solutions_empty_lookup_failure demoEmptyModel rfl

/-- C8: after a successful `get_token` call the issued token is stored
in the `.patric_config` file and the call returns the user ID
identifying the user's workspace; every subsequent service call made
before the token expires reuses the stored token without prompting
again. -/
theorem get_token_stores_and_reuses (username : String) (now : Nat)
    (cfg : PatricConfig) :
    (getToken username now cfg).2.token = some (issueToken username now) ∧
    (getToken username now cfg).1 = (issueToken username now).userId ∧
    ∀ t, t < (issueToken username now).expiry →
      serviceCallAuth (getToken username now cfg).2 t =
        { usedToken := some (issueToken username now), promptedForPassword := false } := by
  refine ⟨rfl, rfl, ?_⟩
  intro t ht
  rw [getToken, serviceCallAuth]
  simp [ht]

/-- Witness for C8 with a concrete username, clock, and empty config. -/
theorem get_token_stores_and_reuses_witness :
    (getToken "mmundy" 0 { token := none }).2.token = some (issueToken "mmundy" 0) ∧
    (getToken "mmundy" 0 { token := none }).1 = "mmundy@patricbrc.org" ∧
    serviceCallAuth (getToken "mmundy" 0 { token := none }).2 100 =
      { usedToken := some (issueToken "mmundy" 0), promptedForPassword := false } := by
  obtain ⟨h1, h2, h3⟩ := get_token_stores_and_reuses "mmundy" 0 { token := none }
  exact ⟨h1, h2, h3 100 (by decide)⟩

lemma insertNewest_perm {α : Type} (d : α → Nat) (x : α) (l : List α) :
    List.Perm (insertNewest d x l) (x :: l) := by
  induction l with
  | nil => exact List.Perm.refl _
  | cons y rest ih =>
    rw [insertNewest]
    split_ifs with h
    · exact List.Perm.refl _
    · exact (List.Perm.cons y ih).trans (List.Perm.swap x y rest)

lemma sortNewestFirst_perm {α : Type} (d : α → Nat) (l : List α) :
    List.Perm (sortNewestFirst d l) l := by
  induction l with
  | nil => exact List.Perm.refl _
  | cons x rest ih =>
    rw [sortNewestFirst]
    exact (insertNewest_perm d x _).trans (List.Perm.cons x ih)

lemma insertNewest_pairwise {α : Type} (d : α → Nat) (x : α) {l : List α}
    (h : l.Pairwise (fun a b => d b ≤ d a)) :
    (insertNewest d x l).Pairwise (fun a b => d b ≤ d a) := by
  induction l with
  | nil => simp [insertNewest]
  | cons y rest ih =>
    rw [insertNewest]
    rw [List.pairwise_cons] at h
    split_ifs with hle
    · refine List.Pairwise.cons ?_ (List.pairwise_cons.mpr h)
      intro b hb
      rcases List.mem_cons.mp hb with rfl | hb
      · exact hle
      · exact le_trans (h.1 b hb) hle
    · refine List.Pairwise.cons ?_ (ih h.2)
      intro b hb
      rcases List.mem_cons.mp ((insertNewest_perm d x rest).mem_iff.mp hb) with rfl | hb
      · exact le_of_lt (not_le.mp hle)
      · exact h.1 b hb

lemma sortNewestFirst_pairwise {α : Type} (d : α → Nat) (l : List α) :
    newestFirst d (sortNewestFirst d l) := by
  induction l with
  | nil => exact List.Pairwise.nil
  | cons x rest ih => exact insertNewest_pairwise d x ih

lemma pairwise_head_max {α : Type} {d : α → Nat} {l : List α}
    (h : newestFirst d l) {s0 : α} (h0 : l[0]? = some s0) :
    ∀ s ∈ l, d s ≤ d s0 := by
  cases l with
  | nil => cases h0
  | cons a tl =>
    obtain rfl : a = s0 := by simpa using h0
    rw [newestFirst, List.pairwise_cons] at h
    intro s hs
    rcases List.mem_cons.mp hs with rfl | hs
    · exact le_refl _
    · exact h.1 s hs

/-- C9: the lists returned by `get_modelseed_gapfill_solutions`,
`get_modelseed_fba_solutions`, `get_patric_gapfill_solutions`, and
`get_patric_fba_solutions` are sorted from newest to oldest, so the
solution at index 0 is always the most recently computed one. -/
theorem solution_lists_newest_to_oldest (m : StoredModel) :
    newestFirst (fun s => s.rundate) (getModelseedGapfillSolutions m) ∧
    newestFirst (fun s => s.rundate) (getModelseedFbaSolutions m) ∧
    newestFirst (fun s => s.rundate) (getPatricGapfillSolutions m) ∧
    newestFirst (fun s => s.rundate) (getPatricFbaSolutions m) ∧
    (∀ s0, (getModelseedGapfillSolutions m)[0]? = some s0 →
      ∀ s ∈ getModelseedGapfillSolutions m, s.rundate ≤ s0.rundate) ∧
    (∀ s0, (getModelseedFbaSolutions m)[0]? = some s0 →
      ∀ s ∈ getModelseedFbaSolutions m, s.rundate ≤ s0.rundate) ∧
    (∀ s0, (getPatricGapfillSolutions m)[0]? = some s0 →
      ∀ s ∈ getPatricGapfillSolutions m, s.rundate ≤ s0.rundate) ∧
    (∀ s0, (getPatricFbaSolutions m)[0]? = some s0 →
      ∀ s ∈ getPatricFbaSolutions m, s.rundate ≤ s0.rundate) :=
  ⟨sortNewestFirst_pairwise _ _, sortNewestFirst_pairwise _ _,
    sortNewestFirst_pairwise _ _, sortNewestFirst_pairwise _ _,
    fun _ h0 => pairwise_head_max (sortNewestFirst_pairwise _ _) h0,
    fun _ h0 => pairwise_head_max (sortNewestFirst_pairwise _ _) h0,
    fun _ h0 => pairwise_head_max (sortNewestFirst_pairwise _ _) h0,
    fun _ h0 => pairwise_head_max (sortNewestFirst_pairwise _ _) h0⟩

/-- Witness for C9 on a model with two gap fill solutions: the list is
newest first and the older run date is bounded by the newest one. -/
theorem solution_lists_newest_to_oldest_witness :
    newestFirst (fun s => s.rundate) (getModelseedGapfillSolutions demoStoredModel) ∧
    demoGapfillOld.rundate ≤ demoGapfillNew.rundate := by
  obtain ⟨h1, _, _, _, h5, _⟩ := solution_lists_newest_to_oldest demoStoredModel
  exact ⟨h1, h5 demoGapfillNew (by decide) demoGapfillOld (by decide)⟩

/-- C10: in every fba solution returned by `get_modelseed_fba_solutions`
or `get_patric_fba_solutions` for a model whose stored solutions satisfy
the solver's feasibility contract, each exchange entry's flux `x` lies
between its `lower_bound` and `upper_bound`; a metabolite with positive
flux is consumed and a metabolite with negative flux is produced. -/
theorem fba_exchange_fluxes (m : StoredModel)
    (h : ∀ s ∈ m.fbas, validFBASolution s) :
    (∀ s ∈ getModelseedFbaSolutions m, ∀ p ∈ s.exchanges,
      (p.2.lowerBound ≤ p.2.x ∧ p.2.x ≤ p.2.upperBound) ∧
      (consumedMet p.2 ↔ 0 < p.2.x) ∧ (producedMet p.2 ↔ p.2.x < 0)) ∧
    (∀ s ∈ getPatricFbaSolutions m, ∀ p ∈ s.exchanges,
      (p.2.lowerBound ≤ p.2.x ∧ p.2.x ≤ p.2.upperBound) ∧
      (consumedMet p.2 ↔ 0 < p.2.x) ∧ (producedMet p.2 ↔ p.2.x < 0)) := by
  have key : ∀ s ∈ sortNewestFirst (fun s => s.rundate) m.fbas, ∀ p ∈ s.exchanges,
      (p.2.lowerBound ≤ p.2.x ∧ p.2.x ≤ p.2.upperBound) ∧
      (consumedMet p.2 ↔ 0 < p.2.x) ∧ (producedMet p.2 ↔ p.2.x < 0) := by
    intro s hs p hp
    have hs' : s ∈ m.fbas := (sortNewestFirst_perm _ m.fbas).mem_iff.mp hs
    exact ⟨h s hs' p hp, Iff.rfl, Iff.rfl⟩
  exact ⟨key, key⟩

/-- Witness for C10 on the documented exchange entry of metabolite
`cpd00001_e0`: its flux is within bounds and, being negative, the
metabolite is produced. -/
theorem fba_exchange_fluxes_witness :
    (demoFBAExchange.lowerBound ≤ demoFBAExchange.x ∧
      demoFBAExchange.x ≤ demoFBAExchange.upperBound) ∧
    (producedMet demoFBAExchange ↔ demoFBAExchange.x < 0) := by
  obtain ⟨hms, _⟩ := fba_exchange_fluxes demoStoredModel (by
    intro s hs
    simp only [demoStoredModel, List.mem_singleton] at hs
    subst hs
    intro p hp
    simp only [demoFBASolution, List.mem_singleton] at hp
    subst hp
    constructor <;> norm_num [demoFBAExchange])
  obtain ⟨hb, _, hprod⟩ := hms demoFBASolution
    (by simp [getModelseedFbaSolutions, demoStoredModel, sortNewestFirst, insertNewest])
    ("cpd00001_e0", demoFBAExchange) (by simp [demoFBASolution])
  exact ⟨hb, hprod⟩

end Mackinac
